/- Verification development for the whisper-app voice transcriber.

   Shallow embedding of src/main.py, src/config.py and src/platform_utils.py.
   Side effects (console prints, desktop notifications, clipboard writes,
   paste keystrokes, temp-file operations, the remote transcription request)
   are modelled as an explicit trace of events; the outcomes of external
   calls (audio device open, serialization I/O, the provider response) are
   passed in as oracle parameters. -/
import Mathlib

namespace WhisperApp

/-- Observable side effects of the program, in the order they are issued. -/
inductive Ev where
| consoleLog (s : String)
| notify (title msg : String)
| clipboardWrite (s : String)
| sleepMs (n : Nat)
| pasteKeystroke
| createTempFile (path : String)
| writeFile (path : String) (bytes : List Nat)
| transcribeCall (path : String)
| deleteFile (path : String)
deriving DecidableEq, Repr

def Ev.isClipboardWrite : Ev → Bool
| .clipboardWrite _ => true
| _ => false

def Ev.isPasteKeystroke : Ev → Bool
| .pasteKeystroke => true
| _ => false

def Ev.isNotify : Ev → Bool
| .notify _ _ => true
| _ => false

def Ev.isTranscribeCall : Ev → Bool
| .transcribeCall _ => true
| _ => false

def Ev.isCreateTempFile : Ev → Bool
| .createTempFile _ => true
| _ => false

def Ev.isWriteFile : Ev → Bool
| .writeFile _ _ => true
| _ => false

def Ev.isDeleteFile : Ev → Bool
| .deleteFile _ => true
| _ => false

/- ---------- config.py ---------- -/

/-- config.py: `OPENAI_API_KEY = os.getenv("OPENAI_API_KEY", "YOUR_OPENAI_API_KEY")`.
    The environment variable is modelled as an `Option String`. -/
def OPENAI_API_KEY (env : Option String) : String :=
  env.getD "YOUR_OPENAI_API_KEY"

/-- config.py: `SAMPLE_RATE = 16000`. -/
def SAMPLE_RATE : Nat := 16000

/-- config.py: `CHANNELS = 1`. -/
def CHANNELS : Nat := 1

/-- main.py: `self.pyaudio_instance.get_sample_size(pyaudio.paInt16)` = 2 bytes. -/
def SAMPLE_WIDTH : Nat := 2

/- ---------- Python string semantics ---------- -/

/-- The set of code points Python's `str.strip()` removes (Unicode whitespace
    as used by CPython's `str.isspace`/`str.strip`). -/
def pyWhitespaceCodes : List Nat :=
  [9, 10, 11, 12, 13, 28, 29, 30, 31, 32, 133, 160, 5760,
   8192, 8193, 8194, 8195, 8196, 8197, 8198, 8199, 8200, 8201, 8202,
   8232, 8233, 8239, 8287, 12288]

def isPySpace (c : Char) : Bool := pyWhitespaceCodes.contains c.toNat

/-- Python `str.strip()`: drop whitespace from both ends. -/
def pyStrip (s : String) : String :=
  String.mk (((s.toList.dropWhile isPySpace).reverse.dropWhile isPySpace).reverse)

/-- Python truthiness of `Optional[str]`: `None` and `""` are falsy. -/
def pyTruthy : Option String → Bool
| none => false
| some s => !s.isEmpty

/-- Python `str.lower()` as used on ASCII OS identifiers. -/
def pyLower (s : String) : String := String.mk (s.toList.map Char.toLower)

/- ---------- WAV serialization (the `wave` module as used in
     save_audio_to_file: mono, 16-bit, 16 kHz, PCM) ---------- -/

/-- Little-endian 16-bit field. -/
def le16 (v : Nat) : List Nat := [v % 256, v / 256 % 256]

/-- Little-endian 32-bit field. -/
def le32 (v : Nat) : List Nat :=
  [v % 256, v / 256 % 256, v / 65536 % 256, v / 16777216 % 256]

/-- Byte-wise concatenation of the captured frames, in capture order
    (`b''.join(self.audio_data)`). -/
def flattenBytes (frames : List (List Nat)) : List Nat := frames.flatten

/-- Declared size of the data chunk: `nframes * blockalign` where
    `nframes = dataLen / blockalign` and the block align is
    `SAMPLE_WIDTH * CHANNELS`, exactly as the `wave` module patches the
    header on close. -/
def wavDeclaredDataSize (dataLen : Nat) : Nat :=
  SAMPLE_WIDTH * CHANNELS * (dataLen / (SAMPLE_WIDTH * CHANNELS))

/-- The first 22 bytes of the canonical PCM WAV header (up to, excluding,
    the channel-count field): the ASCII tags "RIFF", "WAVE" and "fmt ", the
    RIFF chunk size, the fmt-chunk size 16 and the PCM format code 1. -/
def wavFmtPrefix (ds : Nat) : List Nat :=
  [82, 73, 70, 70] ++ le32 (36 + ds) ++ [87, 65, 86, 69] ++
  [102, 109, 116, 32] ++ le32 16 ++ le16 1

/-- The 44-byte canonical PCM WAV header the `wave` module writes for
    `setnchannels(CHANNELS)`, `setsampwidth(SAMPLE_WIDTH)`,
    `setframerate(SAMPLE_RATE)` and `dataLen` bytes of sample data.
    The final tag bytes are the ASCII codes of "data". -/
def wavHeader (dataLen : Nat) : List Nat :=
  wavFmtPrefix (wavDeclaredDataSize dataLen) ++
  le16 CHANNELS ++ le32 SAMPLE_RATE ++
  le32 (SAMPLE_RATE * CHANNELS * SAMPLE_WIDTH) ++
  le16 (CHANNELS * SAMPLE_WIDTH) ++ le16 (8 * SAMPLE_WIDTH) ++
  [100, 97, 116, 97] ++ le32 (wavDeclaredDataSize dataLen)

/-- The bytes `save_audio_to_file` leaves in the temporary WAV file:
    header followed by the concatenated frames. -/
def encodeWav (frames : List (List Nat)) : List Nat :=
  wavHeader (flattenBytes frames).length ++ flattenBytes frames

/-- Read a little-endian 16-bit value from the head of a byte list. -/
def readLE16 (bs : List Nat) : Nat := bs.getD 0 0 + 256 * bs.getD 1 0

/-- Read a little-endian 32-bit value from the head of a byte list. -/
def readLE32 (bs : List Nat) : Nat :=
  bs.getD 0 0 + 256 * bs.getD 1 0 + 65536 * bs.getD 2 0 + 16777216 * bs.getD 3 0

/-- Decode the sample data of a canonical PCM WAV file: the declared data
    size sits at byte offset 40, the data follows at offset 44. -/
def decodeWavData (bs : List Nat) : List Nat :=
  (bs.drop 44).take (readLE32 (bs.drop 40))

/-- Channel count field of a canonical WAV file (offset 22, LE 16-bit). -/
def wavChannels (bs : List Nat) : Nat := readLE16 (bs.drop 22)

/-- Sample-rate field of a canonical WAV file (offset 24, LE 32-bit). -/
def wavSampleRate (bs : List Nat) : Nat := readLE32 (bs.drop 24)

/-- Bits-per-sample field of a canonical WAV file (offset 34, LE 16-bit). -/
def wavBitsPerSample (bs : List Nat) : Nat := readLE16 (bs.drop 34)

/- ---------- the background processing task
     (VoiceTranscriber.process_recording and its callees) ---------- -/

/-- Outcome oracle for `save_audio_to_file`.  The source first creates the
    temporary file with `tempfile.NamedTemporaryFile(delete=False)` and then
    writes the WAV data with the `wave` module; an I/O exception can be
    raised before the file is created or after it (e.g. while writing). -/
inductive SaveOutcome where
| ok
| raiseBeforeCreate (emsg : String)
| raiseAfterCreate (emsg : String)
deriving DecidableEq, Repr

/-- Events of a successful `save_audio_to_file`: create the temp file, then
    write the WAV-encoded frames into it; it returns the temp file path. -/
def save_audio_to_file (tmpPath : String) (frames : List (List Nat)) : List Ev :=
  [.createTempFile tmpPath, .writeFile tmpPath (encodeWav frames)]

/-- `VoiceTranscriber.transcribe_audio`: issues the provider request and
    returns `response.text.strip()`; every exception is caught, logged,
    and turned into `None`.  `resp = some t` models the provider returning
    raw text `t`; `resp = none` models the request raising. -/
def transcribe_audio (path : String) (resp : Option String) :
    Option String × List Ev :=
  match resp with
  | some t => (some (pyStrip t), [.transcribeCall path])
  | none => (none, [.transcribeCall path,
                    .consoleLog "❌ Transcription error"])

/-- `preview = text[:50] + '...' if len(text) > 50 else text`. -/
def pastePreview (text : String) : String :=
  if text.length > 50 then text.take 50 ++ "..." else text

/-- `VoiceTranscriber.paste_transcription`: copy to clipboard, sleep 0.1 s,
    platform paste keystroke, success notification with the preview.  A
    raised exception (modelled at the first external call, `ok = false`)
    is caught: error log plus failure notification, nothing propagates. -/
def paste_transcription (text : String) (ok : Bool) : List Ev :=
  if ok then
    [.clipboardWrite text, .sleepMs 100, .pasteKeystroke,
     .notify "Voice Transcriber" ("✅ Pasted: " ++ pastePreview text)]
  else
    [.consoleLog "❌ Error pasting text",
     .notify "Voice Transcriber" "❌ Paste failed"]

/-- Result of one background task: its event trace and whether the
    temporary audio file still exists when the task exits. -/
structure ProcResult where
  trace : List Ev
  fileExistsAfter : Bool
deriving DecidableEq, Repr

/-- `VoiceTranscriber.process_recording`.  Empty frame buffer: log and
    return.  Otherwise save to a temp file, transcribe, and on a truthy
    transcription paste it; exceptions are caught and notified; the
    `finally` block deletes the temp file only when the local variable
    `temp_file_path` was bound (i.e. `save_audio_to_file` returned) and the
    file exists — if saving raised after creating the file, the name was
    never bound and the file is left behind. -/
def process_recording (tmpPath : String) (frames : List (List Nat))
    (save : SaveOutcome) (resp : Option String) (pasteOk : Bool) :
    ProcResult :=
  if frames.isEmpty then
    { trace := [.consoleLog "❌ No audio data recorded"], fileExistsAfter := false }
  else
    match save with
    | .raiseBeforeCreate emsg =>
      { trace := [.consoleLog ("❌ Error processing recording: " ++ emsg),
                  .notify "Voice Transcriber" ("❌ Error: " ++ emsg)],
        fileExistsAfter := false }
    | .raiseAfterCreate emsg =>
      { trace := [.createTempFile tmpPath,
                  .consoleLog ("❌ Error processing recording: " ++ emsg),
                  .notify "Voice Transcriber" ("❌ Error: " ++ emsg)],
        fileExistsAfter := true }
    | .ok =>
      let tres := transcribe_audio tmpPath resp
      let branch :=
        if pyTruthy tres.1 then
          paste_transcription (tres.1.getD "") pasteOk ++
            [.consoleLog ("✅ Transcribed: " ++ tres.1.getD "")]
        else
          [.consoleLog "❌ No transcription received"]
      { trace := save_audio_to_file tmpPath frames ++ tres.2 ++ branch ++
                 [.deleteFile tmpPath],
        fileExistsAfter := false }

/- ---------- the recording state machine
     (toggle_recording / start_recording / stop_recording) ---------- -/

/-- The mutable state of `VoiceTranscriber` relevant to the toggle cycle,
    plus two ghost counters: how many background processing tasks are
    currently in flight and how many audio captures were started. -/
structure VTState where
  is_recording : Bool
  audio_data : List (List Nat)
  stream_open : Bool
  tasksInFlight : Nat
  capturesStarted : Nat
deriving DecidableEq, Repr

/-- The state at construction time. -/
def initState : VTState :=
  { is_recording := false, audio_data := [], stream_open := false,
    tasksInFlight := 0, capturesStarted := 0 }

/-- `VoiceTranscriber.start_recording`.  Guard: no-op if already recording.
    Sets `is_recording`, clears the buffer, notifies, then tries to open the
    audio stream; on failure (`openOk = false`) logs, resets
    `is_recording = False` and notifies the failure. -/
def start_recording (s : VTState) (openOk : Bool) : VTState × List Ev :=
  if s.is_recording then (s, [])
  else
    let evs : List Ev :=
      [.notify "Voice Transcriber" "🔴 Recording started...",
       .consoleLog "🔴 Recording started..."]
    if openOk then
      ({ s with is_recording := true, audio_data := [], stream_open := true,
                capturesStarted := s.capturesStarted + 1 }, evs)
    else
      ({ s with is_recording := false, audio_data := [] },
       evs ++ [.consoleLog "❌ Error starting recording",
               .notify "Voice Transcriber" "❌ Failed to start recording"])

/-- `VoiceTranscriber.stop_recording`.  Guard: no-op if not recording.
    Clears `is_recording`, notifies, closes the stream, and spawns the
    background processing thread (tracked by the `tasksInFlight` ghost). -/
def stop_recording (s : VTState) : VTState × List Ev :=
  if !s.is_recording then (s, [])
  else
    ({ s with is_recording := false, stream_open := false,
              tasksInFlight := s.tasksInFlight + 1 },
     [.consoleLog "⏹️ Recording stopped, processing...",
      .notify "Voice Transcriber" "⏹️ Processing transcription..."])

/-- `VoiceTranscriber.toggle_recording`: stop if recording, else start. -/
def toggle_recording (s : VTState) (openOk : Bool) : VTState × List Ev :=
  if s.is_recording then stop_recording s else start_recording s openOk

/-- External events driving the state machine: a hotkey toggle (with the
    oracle outcome of the device open) or the completion of one background
    processing task. -/
inductive VTEvent where
| toggle (openOk : Bool)
| taskDone
deriving DecidableEq, Repr

def stepVT (s : VTState) : VTEvent → VTState × List Ev
| .toggle openOk => toggle_recording s openOk
| .taskDone => ({ s with tasksInFlight := s.tasksInFlight - 1 }, [])

def runVT (s : VTState) (es : List VTEvent) : VTState :=
  es.foldl (fun a e => (stepVT a e).1) s

/- ---------- platform selection and startup
     (platform_utils.get_platform_handler, main) ---------- -/

/-- The two platform handlers `get_platform_handler` can construct. -/
inductive PlatformHandler where
| macosHandler
| linuxHandler
deriving DecidableEq, Repr

/-- `platform_utils.get_platform_handler`: lower-case the OS identifier
    (`platform.system().lower()`); `darwin` and `linux` select a handler,
    anything else raises `NotImplementedError`. -/
def get_platform_handler (system : String) : Except String PlatformHandler :=
  let s := pyLower system
  if s = "darwin" then .ok .macosHandler
  else if s = "linux" then .ok .linuxHandler
  else .error ("Platform " ++ s ++
    " is not supported. Only macOS and Linux are supported.")

/-- Result of a completed `VoiceTranscriber.__init__`: the selected handler
    and the fact that the keyboard listener was registered
    (`setup_keyboard_listener` runs only after handler selection). -/
structure AppInit where
  handler : PlatformHandler
  listenerRegistered : Bool
deriving DecidableEq, Repr

/-- `VoiceTranscriber.__init__`: select the platform handler first; a raised
    `NotImplementedError` propagates, so the listener is registered only
    when selection succeeded. -/
def initVoiceTranscriber (system : String) : Except String AppInit :=
  match get_platform_handler system with
  | .error e => .error e
  | .ok h => .ok { handler := h, listenerRegistered := true }

/-- The guidance printed by `main` when the API key is unset. -/
def apiKeyGuidance : String :=
  "❌ Please set your OpenAI API key in config.py or as an environment variable OPENAI_API_KEY"

inductive MainResult where
| exited (code : Nat) (msgs : List String)
| crashed (emsg : String)
| running (app : AppInit)
deriving DecidableEq, Repr

/-- `main`: if the credential equals the placeholder sentinel, print the
    guidance and `sys.exit(1)` before constructing the transcriber;
    otherwise construct `VoiceTranscriber` (an exception propagates). -/
def main (env : Option String) (system : String) : MainResult :=
  if OPENAI_API_KEY env = "YOUR_OPENAI_API_KEY" then
    .exited 1 [apiKeyGuidance]
  else
    match initVoiceTranscriber system with
    | .error e => .crashed e
    | .ok a => .running a

/- ---------- helper lemmas ---------- -/

lemma string_empty_isEmpty : "".isEmpty = true := rfl

lemma pyStrip_of_all_space (s : String) (h : ∀ c ∈ s.toList, isPySpace c = true) :
    pyStrip s = "" := by
  have hd : s.toList.dropWhile isPySpace = [] :=
    List.dropWhile_eq_nil_iff.mpr h
  unfold pyStrip
  rw [hd]
  rfl

lemma encodeWav_drop22 (frames : List (List Nat)) :
    (encodeWav frames).drop 22 =
      le16 CHANNELS ++ (le32 SAMPLE_RATE ++
      (le32 (SAMPLE_RATE * CHANNELS * SAMPLE_WIDTH) ++
      (le16 (CHANNELS * SAMPLE_WIDTH) ++ (le16 (8 * SAMPLE_WIDTH) ++
      ([100, 97, 116, 97] ++
      (le32 (wavDeclaredDataSize (flattenBytes frames).length) ++
       flattenBytes frames)))))) := by
  simp only [encodeWav, wavHeader, List.append_assoc]
  exact List.drop_left' (by simp [wavFmtPrefix, le16, le32])

lemma encodeWav_drop24 (frames : List (List Nat)) :
    (encodeWav frames).drop 24 =
      le32 SAMPLE_RATE ++
      (le32 (SAMPLE_RATE * CHANNELS * SAMPLE_WIDTH) ++
      (le16 (CHANNELS * SAMPLE_WIDTH) ++ (le16 (8 * SAMPLE_WIDTH) ++
      ([100, 97, 116, 97] ++
      (le32 (wavDeclaredDataSize (flattenBytes frames).length) ++
       flattenBytes frames))))) := by
  have h : (encodeWav frames).drop 24 = ((encodeWav frames).drop 22).drop 2 := by
    rw [List.drop_drop]
  rw [h, encodeWav_drop22]
  exact List.drop_left' rfl

lemma encodeWav_drop34 (frames : List (List Nat)) :
    (encodeWav frames).drop 34 =
      le16 (8 * SAMPLE_WIDTH) ++
      ([100, 97, 116, 97] ++
      (le32 (wavDeclaredDataSize (flattenBytes frames).length) ++
       flattenBytes frames)) := by
  have h : (encodeWav frames).drop 34 = ((encodeWav frames).drop 24).drop 10 := by
    rw [List.drop_drop]
  rw [h, encodeWav_drop24]
  have h10 : (le32 SAMPLE_RATE ++ (le32 (SAMPLE_RATE * CHANNELS * SAMPLE_WIDTH) ++
      le16 (CHANNELS * SAMPLE_WIDTH))).length = 10 := rfl
  rw [show (le32 SAMPLE_RATE ++
      (le32 (SAMPLE_RATE * CHANNELS * SAMPLE_WIDTH) ++
      (le16 (CHANNELS * SAMPLE_WIDTH) ++ (le16 (8 * SAMPLE_WIDTH) ++
      ([100, 97, 116, 97] ++
      (le32 (wavDeclaredDataSize (flattenBytes frames).length) ++
       flattenBytes frames)))))) =
      ((le32 SAMPLE_RATE ++ (le32 (SAMPLE_RATE * CHANNELS * SAMPLE_WIDTH) ++
        le16 (CHANNELS * SAMPLE_WIDTH))) ++
      (le16 (8 * SAMPLE_WIDTH) ++
      ([100, 97, 116, 97] ++
      (le32 (wavDeclaredDataSize (flattenBytes frames).length) ++
       flattenBytes frames)))) from by simp [List.append_assoc]]
  exact List.drop_left' h10

lemma encodeWav_drop40 (frames : List (List Nat)) :
    (encodeWav frames).drop 40 =
      le32 (wavDeclaredDataSize (flattenBytes frames).length) ++
      flattenBytes frames := by
  have h : (encodeWav frames).drop 40 = ((encodeWav frames).drop 34).drop 6 := by
    rw [List.drop_drop]
  rw [h, encodeWav_drop34]
  have h6 : (le16 (8 * SAMPLE_WIDTH) ++ ([100, 97, 116, 97] : List Nat)).length = 6 := rfl
  rw [show (le16 (8 * SAMPLE_WIDTH) ++
      (([100, 97, 116, 97] : List Nat) ++
      (le32 (wavDeclaredDataSize (flattenBytes frames).length) ++
       flattenBytes frames))) =
      ((le16 (8 * SAMPLE_WIDTH) ++ ([100, 97, 116, 97] : List Nat)) ++
      (le32 (wavDeclaredDataSize (flattenBytes frames).length) ++
       flattenBytes frames)) from by simp [List.append_assoc]]
  exact List.drop_left' h6

lemma encodeWav_drop44 (frames : List (List Nat)) :
    (encodeWav frames).drop 44 = flattenBytes frames := by
  have h : (encodeWav frames).drop 44 = ((encodeWav frames).drop 40).drop 4 := by
    rw [List.drop_drop]
  rw [h, encodeWav_drop40]
  exact List.drop_left' rfl

lemma readLE32_le32 (x : Nat) (rest : List Nat) (hx : x < 4294967296) :
    readLE32 (le32 x ++ rest) = x := by
  have h : readLE32 (le32 x ++ rest) =
      x % 256 + 256 * (x / 256 % 256) + 65536 * (x / 65536 % 256) +
      16777216 * (x / 16777216 % 256) := rfl
  rw [h]; omega

lemma flattenBytes_even (frames : List (List Nat))
    (h : ∀ f ∈ frames, f.length % 2 = 0) :
    (flattenBytes frames).length % 2 = 0 := by
  induction frames with
  | nil => rfl
  | cons f fs ih =>
    have hf := h f (by simp)
    have hfs := ih (fun g hg => h g (by simp [hg]))
    simp only [flattenBytes, List.flatten_cons, List.length_append] at *
    omega

/- ---------- claims ---------- -/

/-- C1 counterexample: starting from the initial state, four toggles with a
    working device — start, stop, start, stop — leave TWO background
    processing tasks in flight, and after the third toggle (which arrives
    while the first task is still in flight, `tasksInFlight = 1`) the state
    has changed back to Recording and a second audio capture has started.
    This refutes the claim that a toggle during Processing changes no state,
    starts no capture, and that at most one task is ever in flight: the code
    has no Processing guard — `is_recording` is already False once
    `stop_recording` returns, so `toggle_recording` calls
    `start_recording`. -/
theorem C1_counterexample :
    (runVT initState [.toggle true, .toggle true, .toggle true]).tasksInFlight = 1 ∧
    (runVT initState [.toggle true, .toggle true, .toggle true]).is_recording = true ∧
    (runVT initState [.toggle true, .toggle true, .toggle true]).capturesStarted = 2 ∧
    (runVT initState [.toggle true, .toggle true, .toggle true, .toggle true]).tasksInFlight = 2 := by
  decide

/-- C1 (amended): a toggle event arriving after a recording has been stopped
    — in particular while the spawned background task is still in flight —
    is NOT ignored: since `is_recording` is False, `toggle_recording` starts
    a new recording (state changes, a new capture starts) and leaves the
    in-flight task count unchanged, so a subsequent stop can put a second
    task in flight. -/
theorem C1_toggle_after_stop_starts_new_recording (s : VTState)
    (h : s.is_recording = false) :
    (toggle_recording s true).1.is_recording = true ∧
    (toggle_recording s true).1.capturesStarted = s.capturesStarted + 1 ∧
    (toggle_recording s true).1.tasksInFlight = s.tasksInFlight := by
  simp [toggle_recording, start_recording, h]

/-- A state in which a recording has been stopped and one background task
    is still in flight (the Processing phase of the cycle). -/
def processingBusyState : VTState :=
  { is_recording := false, audio_data := [], stream_open := false,
    tasksInFlight := 1, capturesStarted := 1 }

/-- C1 witness: the amended theorem applied to a state with one background
    task in flight. -/
theorem C1_witness :
    processingBusyState.is_recording = false ∧
    ((toggle_recording processingBusyState true).1.is_recording = true ∧
     (toggle_recording processingBusyState true).1.capturesStarted =
       processingBusyState.capturesStarted + 1 ∧
     (toggle_recording processingBusyState true).1.tasksInFlight =
       processingBusyState.tasksInFlight) :=
  ⟨rfl, C1_toggle_after_stop_starts_new_recording processingBusyState rfl⟩

/-- C2 counterexample: on a concrete cycle whose transcription request
    raises (`resp = none`), the background task emits NO notification at
    all — `transcribe_audio` swallows the exception and returns None, and
    the None branch of `process_recording` only prints to the console — so
    the claimed failure notification is never emitted (while indeed no
    clipboard write and no paste keystroke occur). -/
theorem C2_counterexample :
    (process_recording "rec.wav" [[0]] SaveOutcome.ok none true).trace.any Ev.isNotify = false ∧
    (process_recording "rec.wav" [[0]] SaveOutcome.ok none true).trace.any Ev.isClipboardWrite = false ∧
    (process_recording "rec.wav" [[0]] SaveOutcome.ok none true).trace.any Ev.isPasteKeystroke = false := by
  decide

/-- C2 (amended): for every recording cycle whose transcription call fails,
    no clipboard write and no paste keystroke occurs, a failure message is
    printed to the console (no desktop notification is emitted on this
    path), the temp file is still cleaned up, and the state machine is in
    Idle (stopping had already reset `is_recording`). -/
theorem C2_transcription_failure_console_only (tmpPath : String)
    (frames : List (List Nat)) (pasteOk : Bool) (h : frames ≠ []) :
    (process_recording tmpPath frames SaveOutcome.ok none pasteOk).trace.any Ev.isClipboardWrite = false ∧
    (process_recording tmpPath frames SaveOutcome.ok none pasteOk).trace.any Ev.isPasteKeystroke = false ∧
    Ev.consoleLog "❌ No transcription received" ∈ (process_recording tmpPath frames SaveOutcome.ok none pasteOk).trace ∧
    (process_recording tmpPath frames SaveOutcome.ok none pasteOk).fileExistsAfter = false ∧
    (∀ s : VTState, s.is_recording = true → (stop_recording s).1.is_recording = false) := by
  cases frames with
  | nil => exact absurd rfl h
  | cons f fs =>
    refine ⟨?_, ?_, ?_, rfl, ?_⟩
    · simp [process_recording, transcribe_audio, pyTruthy, save_audio_to_file,
            Ev.isClipboardWrite]
    · simp [process_recording, transcribe_audio, pyTruthy, save_audio_to_file,
            Ev.isPasteKeystroke]
    · simp [process_recording, transcribe_audio, pyTruthy, save_audio_to_file]
    · intro s hs; simp [stop_recording, hs]

/-- C2 witness: the amended theorem at a concrete one-frame cycle. -/
theorem C2_witness :
    ([[1]] : List (List Nat)) ≠ [] ∧
    ((process_recording "w2.wav" [[1]] SaveOutcome.ok none true).trace.any Ev.isClipboardWrite = false ∧
     (process_recording "w2.wav" [[1]] SaveOutcome.ok none true).trace.any Ev.isPasteKeystroke = false ∧
     Ev.consoleLog "❌ No transcription received" ∈ (process_recording "w2.wav" [[1]] SaveOutcome.ok none true).trace ∧
     (process_recording "w2.wav" [[1]] SaveOutcome.ok none true).fileExistsAfter = false ∧
     (∀ s : VTState, s.is_recording = true → (stop_recording s).1.is_recording = false)) :=
  ⟨by decide, C2_transcription_failure_console_only "w2.wav" [[1]] true (by decide)⟩

/-- C3 counterexample: if serialization raises after
    `tempfile.NamedTemporaryFile(delete=False)` has created the file (e.g.
    the `wave` write fails), the local `temp_file_path` in
    `process_recording` was never bound, so the `finally` guard
    `if temp_file_path in locals()` skips the deletion and the background
    task exits with the temporary file still existing — refuting the claim
    that the file is deleted on every exception raised during processing. -/
theorem C3_counterexample :
    (process_recording "rec3.wav" [[0]] (SaveOutcome.raiseAfterCreate "disk full") none true).fileExistsAfter = true ∧
    Ev.createTempFile "rec3.wav" ∈ (process_recording "rec3.wav" [[0]] (SaveOutcome.raiseAfterCreate "disk full") none true).trace ∧
    (process_recording "rec3.wav" [[0]] (SaveOutcome.raiseAfterCreate "disk full") none true).trace.any Ev.isDeleteFile = false := by
  decide

/-- C3 (amended): for every recording cycle with a non-empty frame buffer in
    which serialization completes, the temp file is created and written
    before the transcription call and the `finally` deletion is the last
    action of the background task, on transcription success and failure
    alike, leaving no file behind; only an exception raised inside
    serialization after the temp file has been created escapes the cleanup
    (the counterexample). -/
theorem C3_temp_file_scoped_when_serialization_completes (tmpPath : String)
    (frames : List (List Nat)) (resp : Option String) (pasteOk : Bool)
    (h : frames ≠ []) :
    (∃ rest, (process_recording tmpPath frames SaveOutcome.ok resp pasteOk).trace =
      Ev.createTempFile tmpPath :: Ev.writeFile tmpPath (encodeWav frames) ::
      Ev.transcribeCall tmpPath :: rest ++ [Ev.deleteFile tmpPath]) ∧
    (process_recording tmpPath frames SaveOutcome.ok resp pasteOk).fileExistsAfter = false := by
  cases frames with
  | nil => exact absurd rfl h
  | cons f fs =>
    constructor
    · cases resp with
      | none =>
        exact ⟨[Ev.consoleLog "❌ Transcription error",
                Ev.consoleLog "❌ No transcription received"],
               by simp [process_recording, transcribe_audio, pyTruthy,
                        save_audio_to_file]⟩
      | some t =>
        refine ⟨(if pyTruthy (some (pyStrip t)) then
                  paste_transcription (pyStrip t) pasteOk ++
                    [Ev.consoleLog ("✅ Transcribed: " ++ pyStrip t)]
                else [Ev.consoleLog "❌ No transcription received"]), ?_⟩
        simp [process_recording, transcribe_audio, save_audio_to_file]
    · simp [process_recording]

/-- C3 witness: the amended theorem at a concrete successful cycle. -/
theorem C3_witness :
    ([[5, 6]] : List (List Nat)) ≠ [] ∧
    ((∃ rest, (process_recording "w3.wav" [[5, 6]] SaveOutcome.ok (some "hi") true).trace =
       Ev.createTempFile "w3.wav" :: Ev.writeFile "w3.wav" (encodeWav [[5, 6]]) ::
       Ev.transcribeCall "w3.wav" :: rest ++ [Ev.deleteFile "w3.wav"]) ∧
     (process_recording "w3.wav" [[5, 6]] SaveOutcome.ok (some "hi") true).fileExistsAfter = false) :=
  ⟨by decide, C3_temp_file_scoped_when_serialization_completes "w3.wav" [[5, 6]] (some "hi") true (by decide)⟩

/-- C4: with an empty frame buffer the background task short-circuits: its
    whole trace is the single user-visible console message — so no temp
    file is created or written, the Transcription Client is never invoked,
    and no clipboard write, paste keystroke or notification occurs. -/
theorem C4_empty_buffer_short_circuits (tmpPath : String) (save : SaveOutcome)
    (resp : Option String) (pasteOk : Bool) :
    (process_recording tmpPath [] save resp pasteOk).trace =
      [Ev.consoleLog "❌ No audio data recorded"] ∧
    (process_recording tmpPath [] save resp pasteOk).trace.all
      (fun e => !(e.isTranscribeCall || e.isClipboardWrite || e.isPasteKeystroke ||
                  e.isNotify || e.isCreateTempFile || e.isWriteFile)) = true ∧
    (process_recording tmpPath [] save resp pasteOk).fileExistsAfter = false :=
  ⟨rfl, rfl, rfl⟩

/-- C5: when the device open fails during a toggle from Idle,
    `start_recording` resets `is_recording` to False before returning (no
    capture started, no task spawned), the user is notified of the failure,
    and the very next toggle starts a fresh recording — the machine is
    never left stuck in Recording. -/
theorem C5_open_failure_reverts_to_idle (s : VTState)
    (h : s.is_recording = false) :
    (toggle_recording s false).1.is_recording = false ∧
    (toggle_recording s false).1.capturesStarted = s.capturesStarted ∧
    (toggle_recording s false).1.tasksInFlight = s.tasksInFlight ∧
    Ev.notify "Voice Transcriber" "❌ Failed to start recording" ∈ (toggle_recording s false).2 ∧
    (toggle_recording (toggle_recording s false).1 true).1.is_recording = true ∧
    (toggle_recording (toggle_recording s false).1 true).1.capturesStarted = s.capturesStarted + 1 := by
  simp [toggle_recording, start_recording, h]

/-- C5 witness: the theorem at the initial state. -/
theorem C5_witness :
    initState.is_recording = false ∧
    ((toggle_recording initState false).1.is_recording = false ∧
     (toggle_recording initState false).1.capturesStarted = initState.capturesStarted ∧
     (toggle_recording initState false).1.tasksInFlight = initState.tasksInFlight ∧
     Ev.notify "Voice Transcriber" "❌ Failed to start recording" ∈ (toggle_recording initState false).2 ∧
     (toggle_recording (toggle_recording initState false).1 true).1.is_recording = true ∧
     (toggle_recording (toggle_recording initState false).1 true).1.capturesStarted = initState.capturesStarted + 1) :=
  ⟨rfl, C5_open_failure_reverts_to_idle initState rfl⟩

/-- C6: for every delivered text, `paste_transcription` issues, in this
    order, the clipboard write, the 100 ms settle sleep, the paste
    keystroke, and a notification whose preview is the full text when its
    length is at most 50 characters and the first 50 characters followed by
    an ellipsis otherwise. -/
theorem C6_deliver_order_and_preview (text : String) :
    paste_transcription text true =
      [Ev.clipboardWrite text, Ev.sleepMs 100, Ev.pasteKeystroke,
       Ev.notify "Voice Transcriber"
         ("✅ Pasted: " ++
          (if text.length ≤ 50 then text else text.take 50 ++ "..."))] := by
  unfold paste_transcription pastePreview
  by_cases h : text.length ≤ 50
  · simp [h, Nat.not_lt.mpr h]
  · simp [h, Nat.lt_of_not_le h]

/-- C7: serializing a non-empty frame sequence whose frames hold whole
    16-bit samples produces a WAV container declaring 1 channel, 16 bits
    per sample and a 16 kHz rate, whose data chunk decodes back to exactly
    the byte-wise concatenation of the frames in capture order. -/
theorem C7_wav_roundtrip (frames : List (List Nat)) (_h1 : frames ≠ [])
    (h2 : ∀ f ∈ frames, f.length % 2 = 0)
    (h3 : (flattenBytes frames).length < 4294967296) :
    decodeWavData (encodeWav frames) = flattenBytes frames ∧
    wavChannels (encodeWav frames) = CHANNELS ∧
    wavSampleRate (encodeWav frames) = SAMPLE_RATE ∧
    wavBitsPerSample (encodeWav frames) = 8 * SAMPLE_WIDTH := by
  have heven := flattenBytes_even frames h2
  have hds : wavDeclaredDataSize (flattenBytes frames).length =
      (flattenBytes frames).length := by
    have hq : wavDeclaredDataSize (flattenBytes frames).length =
        2 * ((flattenBytes frames).length / 2) := rfl
    rw [hq]; omega
  refine ⟨?_, ?_, ?_, ?_⟩
  · rw [decodeWavData, encodeWav_drop44, encodeWav_drop40,
        readLE32_le32 _ _ (by rw [hds]; exact h3), hds]
    exact List.take_length _
  · rw [wavChannels, encodeWav_drop22]; rfl
  · rw [wavSampleRate, encodeWav_drop24]; rfl
  · rw [wavBitsPerSample, encodeWav_drop34]; rfl

/-- C7 witness: the round trip at two concrete two-byte frames. -/
theorem C7_witness :
    ([[1, 2], [3, 4]] : List (List Nat)) ≠ [] ∧
    (∀ f ∈ ([[1, 2], [3, 4]] : List (List Nat)), f.length % 2 = 0) ∧
    (flattenBytes [[1, 2], [3, 4]]).length < 4294967296 ∧
    (decodeWavData (encodeWav [[1, 2], [3, 4]]) = flattenBytes [[1, 2], [3, 4]] ∧
     wavChannels (encodeWav [[1, 2], [3, 4]]) = CHANNELS ∧
     wavSampleRate (encodeWav [[1, 2], [3, 4]]) = SAMPLE_RATE ∧
     wavBitsPerSample (encodeWav [[1, 2], [3, 4]]) = 8 * SAMPLE_WIDTH) :=
  ⟨by decide, by decide, by decide,
   C7_wav_roundtrip [[1, 2], [3, 4]] (by decide) (by decide) (by decide)⟩

/-- C8: for every OS identifier that lower-cases to something other than
    darwin or linux, `get_platform_handler` raises the fatal
    unsupported-platform error, so `VoiceTranscriber.__init__` aborts
    before `setup_keyboard_listener` and no hotkey listener is ever
    registered. -/
theorem C8_unsupported_platform_fatal (system : String)
    (h1 : pyLower system ≠ "darwin") (h2 : pyLower system ≠ "linux") :
    initVoiceTranscriber system =
      Except.error ("Platform " ++ pyLower system ++
        " is not supported. Only macOS and Linux are supported.") := by
  unfold initVoiceTranscriber get_platform_handler
  simp [h1, h2]

/-- C8 witness: the theorem at the identifier Windows. -/
theorem C8_witness :
    pyLower "Windows" ≠ "darwin" ∧ pyLower "Windows" ≠ "linux" ∧
    initVoiceTranscriber "Windows" =
      Except.error ("Platform " ++ pyLower "Windows" ++
        " is not supported. Only macOS and Linux are supported.") :=
  ⟨by decide, by decide,
   C8_unsupported_platform_fatal "Windows" (by decide) (by decide)⟩

/-- C9: with the credential environment variable unset, `OPENAI_API_KEY`
    takes the placeholder sentinel, and for every OS identifier `main`
    prints the guidance and exits with status 1 — no transcriber is
    constructed and no listener is registered. -/
theorem C9_missing_credential_exits :
    OPENAI_API_KEY none = "YOUR_OPENAI_API_KEY" ∧
    ∀ system : String, main none system = MainResult.exited 1 [apiKeyGuidance] :=
  ⟨rfl, fun _ => rfl⟩

/-- C10: when the provider response consists only of whitespace, the
    stripped text is empty and Python truthiness routes the cycle into the
    no-transcription branch: no clipboard write, no paste keystroke, no
    notification, and the no-transcription message is logged — exactly the
    failure treatment. -/
theorem C10_whitespace_response_treated_as_failure (tmpPath : String)
    (frames : List (List Nat)) (pasteOk : Bool) (t : String)
    (hne : frames ≠ []) (hws : ∀ c ∈ t.toList, isPySpace c = true) :
    (process_recording tmpPath frames SaveOutcome.ok (some t) pasteOk).trace.any Ev.isClipboardWrite = false ∧
    (process_recording tmpPath frames SaveOutcome.ok (some t) pasteOk).trace.any Ev.isPasteKeystroke = false ∧
    (process_recording tmpPath frames SaveOutcome.ok (some t) pasteOk).trace.any Ev.isNotify = false ∧
    Ev.consoleLog "❌ No transcription received" ∈ (process_recording tmpPath frames SaveOutcome.ok (some t) pasteOk).trace := by
  have hstrip : pyStrip t = "" := pyStrip_of_all_space t hws
  cases frames with
  | nil => exact absurd rfl hne
  | cons f fs =>
    refine ⟨?_, ?_, ?_, ?_⟩ <;>
      simp [process_recording, transcribe_audio, hstrip, pyTruthy,
            save_audio_to_file, string_empty_isEmpty, Ev.isClipboardWrite,
            Ev.isPasteKeystroke, Ev.isNotify]

/-- C10 witness: the theorem at a whitespace-only response. -/
theorem C10_witness :
    ([[2]] : List (List Nat)) ≠ [] ∧
    (∀ c ∈ (" \t ").toList, isPySpace c = true) ∧
    ((process_recording "w10.wav" [[2]] SaveOutcome.ok (some " \t ") true).trace.any Ev.isClipboardWrite = false ∧
     (process_recording "w10.wav" [[2]] SaveOutcome.ok (some " \t ") true).trace.any Ev.isPasteKeystroke = false ∧
     (process_recording "w10.wav" [[2]] SaveOutcome.ok (some " \t ") true).trace.any Ev.isNotify = false ∧
     Ev.consoleLog "❌ No transcription received" ∈ (process_recording "w10.wav" [[2]] SaveOutcome.ok (some " \t ") true).trace) :=
  ⟨by decide, by decide,
   C10_whitespace_response_treated_as_failure "w10.wav" [[2]] true " \t "
     (by decide) (by decide)⟩

end WhisperApp
